import Mathlib

/-!
# The gesture action of interact.js (`src/actions/gesture.js`)

A shallow embedding of the gesture action: the eligibility check
`gesture.checker`, the three lifecycle operations `gesture.start`,
`gesture.move` and `gesture.end`, and the listener registered on the
`interactevent-delta` signal.

Conventions of the embedding.

* JavaScript values that the code computes with are `JSVal`: `undefined`,
  `null` or a number.  A finite number is an exact rational (rounding and the
  sign of zero are not modelled); `NaN`, `Infinity` and `-Infinity` are
  separate values that follow the IEEE 754 rules.
* `InteractEvent` objects live on a heap (a list, a reference is an index), so
  that "the same object" is "the same reference" and a field assignment is an
  update of a heap cell.
* `interaction.target.fire(e)` appends to a dispatch log the reference that was
  fired, the fields the event has at that moment and the interaction as a
  listener sees it at that moment.
* The `InteractEvent` constructor and the geometry helpers of `utils` are not
  part of this file; they are parameters of the operations that call them.
-/

namespace GestureJS

/-! ## JavaScript values -/

/-- JavaScript numbers: a finite value (an exact rational) or one of the three
special values. -/
inductive JSNum where
  | fin (q : ℚ)
  | nan
  | posInf
  | negInf
deriving DecidableEq

/-- The JavaScript values that the fields read by this file range over. -/
inductive JSVal where
  | undefined
  | null
  | num (n : JSNum)
deriving DecidableEq

/-- The abstract operation ToNumber: `undefined` is `NaN`, `null` is `0`. -/
def toNumber : JSVal → JSNum
  | .undefined => .nan
  | .null => .fin 0
  | .num n => n

/-- Subtraction of numbers. -/
def JSNum.sub : JSNum → JSNum → JSNum
  | .fin a, .fin b => .fin (a - b)
  | .nan, _ => .nan
  | _, .nan => .nan
  | .posInf, .posInf => .nan
  | .negInf, .negInf => .nan
  | .posInf, _ => .posInf
  | .negInf, _ => .negInf
  | .fin _, .posInf => .negInf
  | .fin _, .negInf => .posInf

/-- Division of numbers (a zero divisor is the positive zero). -/
def JSNum.div : JSNum → JSNum → JSNum
  | .fin a, .fin b =>
    if b = 0 then (if a = 0 then .nan else if 0 < a then .posInf else .negInf)
    else .fin (a / b)
  | .nan, _ => .nan
  | _, .nan => .nan
  | .fin _, .posInf => .fin 0
  | .fin _, .negInf => .fin 0
  | .posInf, .fin b => if b < 0 then .negInf else .posInf
  | .negInf, .fin b => if b < 0 then .posInf else .negInf
  | .posInf, .posInf => .nan
  | .posInf, .negInf => .nan
  | .negInf, .posInf => .nan
  | .negInf, .negInf => .nan

/-- The binary operator `-`: both operands go through ToNumber. -/
def jsSub (a b : JSVal) : JSVal := .num ((toNumber a).sub (toNumber b))

/-- The binary operator `/`: both operands go through ToNumber. -/
def jsDiv (a b : JSVal) : JSVal := .num ((toNumber a).div (toNumber b))

/-- The operator `!==` on the values of `JSVal`: `NaN` differs from every
value, itself included; otherwise two values differ when they are not the same
value. -/
def strictNe (a b : JSVal) : Bool :=
  match a, b with
  | .num .nan, _ => true
  | _, .num .nan => true
  | x, y => decide (x ≠ y)

/-- The global function `isNaN`: ToNumber of the argument is `NaN`. -/
def isNaN (v : JSVal) : Bool :=
  match toNumber v with
  | .nan => true
  | _ => false

/-- A value is a finite number. -/
def JSVal.isFinite : JSVal → Bool
  | .num (.fin _) => true
  | _ => false

/-- The literal `Infinity`. -/
def JSVal.infinity : JSVal := .num .posInf

/-- A number literal. -/
def JSVal.lit (q : ℚ) : JSVal := .num (.fin q)

/-! ## Objects -/

/-- A tracked pointer with its page and client coordinates. -/
structure Pointer where
  pageX : JSVal
  pageY : JSVal
  clientX : JSVal
  clientY : JSVal
deriving DecidableEq

/-- Modelled from the spec: the bounding box returned by `utils.touchBBox`
(that helper is not in this file), an axis-aligned box enclosing the
pointers. -/
structure Box where
  left : JSVal
  top : JSVal
  width : JSVal
  height : JSVal
deriving DecidableEq

/-- A DOM element, known by an identifier. -/
structure Element where
  id : Nat
deriving DecidableEq

/-- A raw input event handed to the lifecycle operations, known by an
identifier. -/
structure RawEvent where
  id : Nat
deriving DecidableEq

/-- The object `interaction.gesture`.  `prevScale` is read at line 155; no line
of this file writes it. -/
structure GestureState where
  startDistance : JSVal
  prevDistance : JSVal
  startAngle : JSVal
  prevAngle : JSVal
  scale : JSVal
  prevScale : JSVal
deriving DecidableEq

/-- The fields of an `InteractEvent` that this file reads or writes.  A field
that holds no box, or no array, is `none`; an array entry that is `undefined`
is `none`. -/
structure InteractEvent where
  distance : JSVal
  box : Option Box
  scale : JSVal
  ds : JSVal
  angle : JSVal
  da : JSVal
  touches : Option (List (Option Pointer))
deriving DecidableEq

/-- An `InteractEvent` object on the heap: the arguments of the
`new InteractEvent(interaction, event, action, phase, element)` that made it,
and its current fields. -/
structure HeapObj where
  source : RawEvent
  action : String
  phase : String
  element : Element
  fields : InteractEvent
deriving DecidableEq

/-- The heap of `InteractEvent` objects; a reference is an index. -/
abbrev Heap := List HeapObj

/-- The interaction session, as far as this file uses it.  `prevEvent` is a
reference to the previous event, or `none` when it is `null` or `undefined`. -/
structure Interaction where
  pointerIds : List Nat
  pointers : List Pointer
  gesture : GestureState
  prevEvent : Option Nat
  element : Element
  _interacting : Bool
deriving DecidableEq

/-- One call of `interaction.target.fire`: the reference fired, the fields of
the event at that moment, and the interaction as listeners see it then. -/
structure Dispatch where
  ref : Nat
  event : Option InteractEvent
  seen : Interaction
deriving DecidableEq

/-- The state the lifecycle operations act on. -/
structure World where
  interaction : Interaction
  heap : Heap
  fired : List Dispatch
deriving DecidableEq

/-- The `InteractEvent` constructor (not in this file): from the heap, the
interaction and the arguments it computes the fields of the new object. -/
abbrev Construct := Heap → Interaction → RawEvent → String → String → Element → InteractEvent

/-- Read a field of the object a reference designates. -/
def getField (heap : Heap) (ref : Nat) (f : InteractEvent → JSVal) : JSVal :=
  match heap[ref]? with
  | some o => f o.fields
  | none => .undefined

/-- Assign to the fields of the object a reference designates. -/
def updateObj (heap : Heap) (ref : Nat) (f : InteractEvent → InteractEvent) : Heap :=
  match heap[ref]? with
  | some o => heap.set ref { o with fields := f o.fields }
  | none => heap

/-- The expression `new InteractEvent(interaction, event, action, phase, element)`:
allocates the object and returns its reference. -/
def newInteractEvent (C : Construct) (w : World) (event : RawEvent) (action phase : String)
    (element : Element) : Nat × World :=
  (w.heap.length,
    { w with heap := w.heap ++
        [{ source := event, action := action, phase := phase, element := element,
           fields := C w.heap w.interaction event action phase element }] })

/-- The call `interaction.target.fire(ref)`. -/
def fire (w : World) (ref : Nat) : World :=
  { w with fired := w.fired ++
      [{ ref := ref, event := (w.heap[ref]?).map HeapObj.fields, seen := w.interaction }] }

/-- The value `{ name: ... }` returned by a checker. -/
structure ActionMatch where
  name : String
deriving DecidableEq

/-! ## The `gesture` object, lines 9 to 82 -/

namespace gesture

/-- Lines 19 to 25.  The first four arguments are not used.  The result is the
returned value (`none` for `null`) and the interaction after the call. -/
def checker {P E I L : Type} (_pointer : P) (_event : E) (_interactable : I) (_element : L)
    (interaction : Interaction) : Option ActionMatch × Interaction :=
  if interaction.pointerIds.length ≥ 2 then
    (some { name := "gesture" }, interaction)
  else
    (none, interaction)

/-- Lines 33 to 47. -/
def start (C : Construct) (event : RawEvent) (w : World) : Nat × World :=
  let (gestureEvent, w) := newInteractEvent C w event "gesture" "start" w.interaction.element
  let w := { w with heap := updateObj w.heap gestureEvent fun e => { e with ds := JSVal.lit 0 } }
  let distance := getField w.heap gestureEvent (·.distance)
  let w := { w with interaction := { w.interaction with
    gesture := { w.interaction.gesture with prevDistance := distance } } }
  let w := { w with interaction := { w.interaction with
    gesture := { w.interaction.gesture with startDistance := distance } } }
  let angle := getField w.heap gestureEvent (·.angle)
  let w := { w with interaction := { w.interaction with
    gesture := { w.interaction.gesture with prevAngle := angle } } }
  let w := { w with interaction := { w.interaction with
    gesture := { w.interaction.gesture with startAngle := angle } } }
  let w := { w with interaction := { w.interaction with
    gesture := { w.interaction.gesture with scale := JSVal.lit 1 } } }
  let w := { w with interaction := { w.interaction with _interacting := true } }
  let w := fire w gestureEvent
  (gestureEvent, w)

/-- Lines 49 to 73.  The result is the returned reference (`none` when
`interaction.prevEvent` is returned and holds no object). -/
def move (C : Construct) (event : RawEvent) (w : World) : Option Nat × World :=
  if w.interaction.pointerIds.length = 0 then
    (w.interaction.prevEvent, w)
  else
    let (gestureEvent, w) := newInteractEvent C w event "gesture" "move" w.interaction.element
    let w := { w with heap := updateObj w.heap gestureEvent fun e =>
      { e with ds := jsSub (getField w.heap gestureEvent (·.scale)) w.interaction.gesture.scale } }
    let w := fire w gestureEvent
    let w := { w with interaction := { w.interaction with
      gesture := { w.interaction.gesture with prevAngle := getField w.heap gestureEvent (·.angle) } } }
    let w := { w with interaction := { w.interaction with
      gesture := { w.interaction.gesture with
        prevDistance := getField w.heap gestureEvent (·.distance) } } }
    let scale := getField w.heap gestureEvent (·.scale)
    let w :=
      if strictNe scale JSVal.infinity
          && strictNe scale .null
          && strictNe scale .undefined
          && !isNaN scale then
        { w with interaction := { w.interaction with
          gesture := { w.interaction.gesture with scale := scale } } }
      else w
    (some gestureEvent, w)

/-- Lines 75 to 79 (`end` in the source). -/
def end_ (C : Construct) (event : RawEvent) (w : World) : World :=
  let (endEvent, w) := newInteractEvent C w event "gesture" "end" w.interaction.element
  fire w endEvent

end gesture

/-- A run of consecutive `gesture.move` calls, one for each raw event. -/
def moves (C : Construct) : List RawEvent → World → World
  | [], w => w
  | event :: rest, w => moves C rest (gesture.move C event w).2

/-! ## The listener on `interactevent-delta`, lines 125 to 158 -/

/-- The exceptions the listener can raise. -/
inductive JSError where
  | typeError
  | referenceError
deriving DecidableEq

/-- The outcome of a run of the listener: normal completion with the heap it
leaves, or an exception together with the heap as the run had left it when the
exception was raised (what was assigned before stays assigned). -/
abbrev Outcome := Except (JSError × Heap) Heap

/-- The heap a run leaves, whether it completed or raised. -/
def heapAfter : Outcome → Heap
  | .ok heap => heap
  | .error (_, heap) => heap

/-- The geometry helpers of `utils` (not in this file).  The reference angle
of `touchAngle` is a value (`undefined` at line 138); the `deltaSource`
argument is `none` when the variable passed is `undefined`. -/
structure Utils where
  touchDistance : List Pointer → Option String → JSVal
  touchBBox : List Pointer → Option Box
  touchAngle : List Pointer → JSVal → Option String → JSVal

/-- The object the signal is fired with. -/
structure SignalArg where
  action : String
  interaction : Interaction
  iEvent : Nat
  starting : Bool
  ending : Bool
  deltaSource : String
deriving DecidableEq

/-- The values a property of the objects of line 128 can hold. -/
inductive PropVal where
  | signalArg (a : SignalArg)
  | session (i : Interaction)
  | eventRef (r : Nat)
  | bool (b : Bool)
  | str (s : String)
deriving DecidableEq

/-- An object as the list of its own properties. -/
abbrev JSObject := List (String × PropVal)

/-- The five names bound at line 128; `none` is `undefined`. -/
structure Bindings where
  interaction : Option Interaction
  iEvent : Option Nat
  starting : Option Bool
  ending : Option Bool
  deltaSource : Option String
deriving DecidableEq

/-- The pattern `{ interaction, iEvent, starting, ending, deltaSource }` of
line 128 applied to an object: each name is bound to the property of that name,
and to `undefined` when the object has no such property. -/
def destructure (o : JSObject) : Bindings :=
  { interaction := match o.lookup "interaction" with
      | some (.session i) => some i
      | _ => none
    iEvent := match o.lookup "iEvent" with
      | some (.eventRef r) => some r
      | _ => none
    starting := match o.lookup "starting" with
      | some (.bool b) => some b
      | _ => none
    ending := match o.lookup "ending" with
      | some (.bool b) => some b
      | _ => none
    deltaSource := match o.lookup "deltaSource" with
      | some (.str s) => some s
      | _ => none }

/-- The object literal `{arg}` of line 128: its one property is named `arg`. -/
def argWrapper (arg : SignalArg) : JSObject := [("arg", .signalArg arg)]

/-- Read the `box` of the object a reference designates. -/
def getBox (heap : Heap) (ref : Nat) : Option Box :=
  match heap[ref]? with
  | some o => o.fields.box
  | none => none

/-- Lines 134 to 139, the branch taken when `starting` is truthy. -/
def enrichStart (U : Utils) (pointers : List Pointer) (deltaSource : Option String)
    (iEvent : Nat) (heap : Heap) : Heap :=
  let heap := updateObj heap iEvent fun e => { e with distance := U.touchDistance pointers deltaSource }
  let heap := updateObj heap iEvent fun e => { e with box := U.touchBBox pointers }
  let heap := updateObj heap iEvent fun e => { e with scale := JSVal.lit 1 }
  let heap := updateObj heap iEvent fun e => { e with ds := JSVal.lit 0 }
  let heap := updateObj heap iEvent fun e =>
    { e with angle := U.touchAngle pointers .undefined deltaSource }
  updateObj heap iEvent fun e => { e with da := JSVal.lit 0 }

/-- Lines 142 to 147, the branch taken when `ending` is truthy or the global
`event` is an `InteractEvent`.  Reading a property of `interaction.prevEvent`
raises a TypeError when it holds no object, before anything is assigned. -/
def enrichEnd (interaction : Interaction) (iEvent : Nat) (heap : Heap) : Outcome :=
  match interaction.prevEvent with
  | none => .error (.typeError, heap)
  | some prev =>
    let heap := updateObj heap iEvent fun e => { e with distance := getField heap prev (·.distance) }
    let heap := updateObj heap iEvent fun e => { e with box := getBox heap prev }
    let heap := updateObj heap iEvent fun e => { e with scale := getField heap prev (·.scale) }
    let heap := updateObj heap iEvent fun e =>
      { e with ds := jsSub (getField heap iEvent (·.scale)) (JSVal.lit 1) }
    let heap := updateObj heap iEvent fun e => { e with angle := getField heap prev (·.angle) }
    let heap := updateObj heap iEvent fun e =>
      { e with da := jsSub (getField heap iEvent (·.angle)) interaction.gesture.startAngle }
    .ok heap

/-- Lines 150 to 156, the remaining branch. -/
def enrichMove (U : Utils) (interaction : Interaction) (pointers : List Pointer)
    (deltaSource : Option String) (iEvent : Nat) (heap : Heap) : Heap :=
  let heap := updateObj heap iEvent fun e => { e with distance := U.touchDistance pointers deltaSource }
  let heap := updateObj heap iEvent fun e => { e with box := U.touchBBox pointers }
  let heap := updateObj heap iEvent fun e =>
    { e with scale := jsDiv (getField heap iEvent (·.distance)) interaction.gesture.startDistance }
  let heap := updateObj heap iEvent fun e =>
    { e with angle := U.touchAngle pointers interaction.gesture.prevAngle deltaSource }
  let heap := updateObj heap iEvent fun e =>
    { e with ds := jsSub (getField heap iEvent (·.scale)) interaction.gesture.prevScale }
  updateObj heap iEvent fun e =>
    { e with da := jsSub (getField heap iEvent (·.angle)) interaction.gesture.prevAngle }

/-- The test `ending || event instanceof InteractEvent` of line 141.  The name
`event` is not declared in the listener nor in the module, so it is read from
the global scope: `globalEvent` is `none` when no such global exists (the read
raises a ReferenceError) and `some b` when it exists and `instanceof` gives
`b`.  The right operand is evaluated only when `ending` is falsy. -/
def endingOrSynthetic (globalEvent : Option Bool) (ending : Option Bool) : Except JSError Bool :=
  if ending = some true then .ok true
  else
    match globalEvent with
    | none => .error .referenceError
    | some b => .ok b

/-- Lines 129 to 157, from the five bindings of line 128.  Reading a property
of `undefined` (line 129) or assigning one (line 131) raises a TypeError.  An
exception raised at line 141 or 142 leaves the `touches` of line 131
assigned. -/
def enrich (U : Utils) (globalEvent : Option Bool) (b : Bindings) (heap : Heap) : Outcome :=
  match b.interaction with
  | none => .error (.typeError, heap)
  | some interaction =>
    let pointers := interaction.pointers
    match b.iEvent with
    | none => .error (.typeError, heap)
    | some iEvent =>
      let heap := updateObj heap iEvent fun e =>
        { e with touches := some [pointers[0]?, pointers[1]?] }
      if b.starting = some true then
        .ok (enrichStart U pointers b.deltaSource iEvent heap)
      else
        match endingOrSynthetic globalEvent b.ending with
        | .error err => .error (err, heap)
        | .ok true => enrichEnd interaction iEvent heap
        | .ok false => .ok (enrichMove U interaction pointers b.deltaSource iEvent heap)

/-- Lines 125 to 158: the listener.  It returns at once for another action;
otherwise it destructures the object literal `{arg}` (line 128) and goes on
with the names so bound. -/
def interacteventDelta (U : Utils) (globalEvent : Option Bool) (arg : SignalArg) (heap : Heap) :
    Outcome :=
  if arg.action ≠ "gesture" then .ok heap
  else enrich U globalEvent (destructure (argWrapper arg)) heap

/-- The guard of lines 64 to 67 as a predicate on the scale of the event. -/
def accepts (scale : JSVal) : Bool :=
  strictNe scale JSVal.infinity && strictNe scale .null && strictNe scale .undefined && !isNaN scale

/-- The fields the constructor gives the event that an operation builds for the
phase it names. -/
def built (C : Construct) (phase : String) (event : RawEvent) (w : World) : InteractEvent :=
  C w.heap w.interaction event "gesture" phase w.interaction.element

/-! ## Concrete inputs -/

/-- A constructor that gives every event the same fields. -/
def constConstruct (e : InteractEvent) : Construct := fun _ _ _ _ _ _ => e

/-- An event of distance 20, scale 2 and angle 0. -/
def sampleEvent : InteractEvent :=
  { distance := JSVal.lit 20, box := none, scale := JSVal.lit 2, ds := .undefined,
    angle := JSVal.lit 0, da := JSVal.lit 0, touches := none }

/-- The gesture state right after a start at distance 10 and angle 0. -/
def sampleGesture : GestureState :=
  { startDistance := JSVal.lit 10, prevDistance := JSVal.lit 10, startAngle := JSVal.lit 0,
    prevAngle := JSVal.lit 0, scale := JSVal.lit 1, prevScale := .undefined }

/-- A pointer at the same page and client position. -/
def pointerAt (x y : ℚ) : Pointer :=
  { pageX := JSVal.lit x, pageY := JSVal.lit y, clientX := JSVal.lit x, clientY := JSVal.lit y }

/-- An interaction with two pointers down, at (0,0) and (20,0), whose previous
event is the object at reference 0. -/
def sampleInteraction : Interaction :=
  { pointerIds := [1, 2], pointers := [pointerAt 0 0, pointerAt 20 0], gesture := sampleGesture,
    prevEvent := some 0, element := { id := 7 }, _interacting := true }

/-- The previous event as a heap object. -/
def samplePrev : HeapObj :=
  { source := { id := 0 }, action := "gesture", phase := "start", element := { id := 7 },
    fields := sampleEvent }

/-- An end event under construction, its geometry not yet filled in. -/
def sampleNew : HeapObj :=
  { source := { id := 1 }, action := "gesture", phase := "end", element := { id := 7 },
    fields := { sampleEvent with distance := .undefined, scale := .undefined,
                                 angle := .undefined, da := .undefined } }

/-- A world with two pointers down and one earlier event on the heap. -/
def sampleWorld : World :=
  { interaction := sampleInteraction, heap := [samplePrev], fired := [] }

/-- The same world after both pointers were lifted. -/
def idleWorld : World :=
  { sampleWorld with interaction := { sampleInteraction with pointerIds := [], pointers := [] } }

/-- Scales of a run with glitches: a finite value, then `NaN`, `Infinity`,
`null` and `undefined`. -/
def glitchScale : Nat → JSVal
  | 0 => JSVal.lit 3
  | 1 => .num .nan
  | 2 => JSVal.infinity
  | 3 => .null
  | _ => .undefined

/-- A constructor whose events carry the scale `glitchScale` gives for the
identifier of the raw event. -/
def glitchConstruct : Construct :=
  fun _ _ event _ _ _ => { sampleEvent with scale := glitchScale event.id }

/-- Geometry helpers that return fixed values. -/
def sampleUtils : Utils :=
  { touchDistance := fun _ _ => JSVal.lit 20
    touchBBox := fun _ => none
    touchAngle := fun _ _ _ => JSVal.lit 0 }

/-- A heap with the previous event at reference 0 and the event under
construction at reference 1. -/
def sampleHeap : Heap := [samplePrev, sampleNew]

/-! ## `Interactable.prototype.gesturable`, lines 107 to 123 -/

/-- The object `options.gesture` of an Interactable; its properties are those
of `gesture.defaults`, lines 10 to 17. -/
structure GestureOptions where
  manualStart : Bool
  enabled : Bool
  max : JSVal
  maxPerElement : JSVal
  restrict : Option Nat
deriving DecidableEq

/-- The object `gesture.defaults`, lines 10 to 17. -/
def gesture.defaults : GestureOptions :=
  { manualStart := false, enabled := false, max := JSVal.infinity,
    maxPerElement := JSVal.lit 1, restrict := none }

/-- The `enabled` property of an options object: absent, a boolean, or a value
of another kind. -/
inductive EnabledProp where
  | absent
  | bool (b : Bool)
  | other
deriving DecidableEq

/-- An options object passed to `gesturable`.  Line 109 reads `enabled`; the
other properties (listeners, limits) are read only by `setPerAction` and
`setOnEvents` and are known by an identifier. -/
structure OptionsArg where
  enabled : EnabledProp
  others : Nat
deriving DecidableEq

/-- The argument of `gesturable`: none, a boolean (`utils.isBool`), an object
(`utils.isObject`) or a value of another kind. -/
inductive GesturableArg where
  | absent
  | bool (b : Bool)
  | object (o : OptionsArg)
  | other
deriving DecidableEq

/-- The values a JavaScript caller can get back from `gesturable`: the
receiver `this`, an options object, or a boolean. -/
inductive Returned where
  | this
  | gestureOptions (o : GestureOptions)
  | bool (b : Bool)
deriving DecidableEq

/-- An Interactable: `options.gesture`, and the state that only `setPerAction`
and `setOnEvents` write, known by an identifier. -/
structure Interactable where
  gesture : GestureOptions
  others : Nat
deriving DecidableEq

/-- The methods `setPerAction` and `setOnEvents` of `Interactable` (not in
this file). -/
structure Methods where
  setPerAction : String → OptionsArg → Interactable → Interactable
  setOnEvents : String → OptionsArg → Interactable → Interactable

/-- Lines 107 to 123.  The result is the returned value and the receiver after
the call. -/
def gesturable (M : Methods) (options : GesturableArg) (self : Interactable) :
    Returned × Interactable :=
  match options with
  | .object o =>
    let self := { self with gesture := { self.gesture with
      enabled := if o.enabled = .bool false then false else true } }
    let self := M.setPerAction "gesture" o self
    let self := M.setOnEvents "gesture" o self
    (.this, self)
  | .bool b =>
    let self := { self with gesture := { self.gesture with enabled := b } }
    (.this, self)
  | _ => (.gestureOptions self.gesture, self)

/-! ## Sums of deltas and further concrete inputs -/

/-- Addition of numbers. -/
def JSNum.add : JSNum → JSNum → JSNum
  | .fin a, .fin b => .fin (a + b)
  | .nan, _ => .nan
  | _, .nan => .nan
  | .posInf, .negInf => .nan
  | .negInf, .posInf => .nan
  | .posInf, _ => .posInf
  | .negInf, _ => .negInf
  | .fin _, .posInf => .posInf
  | .fin _, .negInf => .negInf

/-- The binary operator `+` on the values of `JSVal`: both operands go through
ToNumber. -/
def jsAdd (a b : JSVal) : JSVal := .num ((toNumber a).add (toNumber b))

/-- The `ds` of the event each call of a run of moves returns, in order. -/
def movesDs (C : Construct) : List RawEvent → World → List JSVal
  | [], _ => []
  | event :: rest, w =>
    (match (gesture.move C event w).1 with
      | some ref => getField (gesture.move C event w).2.heap ref (·.ds)
      | none => .undefined) :: movesDs C rest (gesture.move C event w).2

/-- The `touches` of the object at a reference in the heap a run of the
listener leaves, whether it completed or raised: `none` when the reference
designates no object, `some none` when the object has no `touches`. -/
def touchesAfter (result : Outcome) (ref : Nat) : Option (Option (List (Option Pointer))) :=
  ((heapAfter result)[ref]?).map (·.fields.touches)

/-- Methods that leave the Interactable as it is. -/
def idleMethods : Methods :=
  { setPerAction := fun _ _ self => self
    setOnEvents := fun _ _ self => self }

/-- An Interactable with the default gesture options. -/
def sampleInteractable : Interactable := { gesture := gesture.defaults, others := 0 }

/-- Scales of a run with one glitch: 2, then `NaN`, then 5. -/
def freezeScale : Nat → JSVal
  | 0 => JSVal.lit 2
  | 1 => .num .nan
  | _ => JSVal.lit 5

/-- A constructor whose events carry the scale `freezeScale` gives for the
identifier of the raw event. -/
def freezeConstruct : Construct :=
  fun _ _ event _ _ _ => { sampleEvent with scale := freezeScale event.id }

/-- An interaction with one pointer left, at (0,0). -/
def onePointerInteraction : Interaction :=
  { sampleInteraction with pointerIds := [1], pointers := [pointerAt 0 0] }

/-- The interaction of the scenario: two pointers, at (0,0) and at (x,0). -/
def scenarioInteraction (x : ℚ) (g : GestureState) (prevEvent : Option Nat) : Interaction :=
  { pointerIds := [1, 2], pointers := [pointerAt 0 0, pointerAt x 0], gesture := g,
    prevEvent := prevEvent, element := { id := 7 }, _interacting := false }

/-! ## Heap lemmas and the lifecycle operations in closed form -/

theorem getElem?_new (h : Heap) (o : HeapObj) : (h ++ [o])[h.length]? = some o := by
  simp

theorem updateObj_new (h : Heap) (o : HeapObj) (f : InteractEvent → InteractEvent) :
    updateObj (h ++ [o]) h.length f = h ++ [{ o with fields := f o.fields }] := by
  simp [updateObj]

theorem getField_new (h : Heap) (o : HeapObj) (g : InteractEvent → JSVal) :
    getField (h ++ [o]) h.length g = g o.fields := by
  simp [getField]

/-- The whole effect of `gesture.start`. -/
theorem start_eq (C : Construct) (event : RawEvent) (w : World) :
    gesture.start C event w =
      (w.heap.length,
        { interaction := { w.interaction with
            gesture := { w.interaction.gesture with
              startDistance := (built C "start" event w).distance,
              prevDistance := (built C "start" event w).distance,
              startAngle := (built C "start" event w).angle,
              prevAngle := (built C "start" event w).angle,
              scale := JSVal.lit 1 },
            _interacting := true },
          heap := w.heap ++ [{
            source := event, action := "gesture", phase := "start",
            element := w.interaction.element,
            fields := { built C "start" event w with ds := JSVal.lit 0 } }],
          fired := w.fired ++ [{
            ref := w.heap.length,
            event := some { built C "start" event w with ds := JSVal.lit 0 },
            seen := { w.interaction with
              gesture := { w.interaction.gesture with
                startDistance := (built C "start" event w).distance,
                prevDistance := (built C "start" event w).distance,
                startAngle := (built C "start" event w).angle,
                prevAngle := (built C "start" event w).angle,
                scale := JSVal.lit 1 },
              _interacting := true } }] }) := by
  simp only [gesture.start, newInteractEvent, updateObj_new, getField_new, fire,
    getElem?_new, Option.map_some', built]

/-- The whole effect of `gesture.move` when a pointer is down. -/
theorem move_eq (C : Construct) (event : RawEvent) (w : World)
    (h : w.interaction.pointerIds.length ≠ 0) :
    gesture.move C event w =
      (some w.heap.length,
        { interaction := { w.interaction with
            gesture := { w.interaction.gesture with
              prevAngle := (built C "move" event w).angle,
              prevDistance := (built C "move" event w).distance,
              scale :=
                if accepts (built C "move" event w).scale then (built C "move" event w).scale
                else w.interaction.gesture.scale } },
          heap := w.heap ++ [{
            source := event, action := "gesture", phase := "move",
            element := w.interaction.element,
            fields := { built C "move" event w with
              ds := jsSub (built C "move" event w).scale w.interaction.gesture.scale } }],
          fired := w.fired ++ [{
            ref := w.heap.length,
            event := some { built C "move" event w with
              ds := jsSub (built C "move" event w).scale w.interaction.gesture.scale },
            seen := w.interaction }] }) := by
  simp only [gesture.move, if_neg h, newInteractEvent, updateObj_new, getField_new, fire,
    getElem?_new, Option.map_some', accepts, built]
  split <;> rfl

/-- The whole effect of `gesture.end`. -/
theorem end_eq (C : Construct) (event : RawEvent) (w : World) :
    gesture.end_ C event w =
      { w with
        heap := w.heap ++ [{
            source := event, action := "gesture", phase := "end",
            element := w.interaction.element, fields := built C "end" event w }],
        fired := w.fired ++ [{
            ref := w.heap.length, event := some (built C "end" event w),
            seen := w.interaction }] } := by
  simp only [gesture.end_, newInteractEvent, fire, getElem?_new, Option.map_some', built]

/-- The guard lets through the finite numbers and `-Infinity`, nothing else. -/
theorem accepts_iff (s : JSVal) : accepts s = true ↔ (s.isFinite = true ∨ s = .num .negInf) := by
  rcases s with _ | _ | (q | _ | _ | _) <;>
    simp [accepts, strictNe, isNaN, toNumber, JSVal.isFinite, JSVal.infinity]

/-- The guard lets every finite number through. -/
theorem accepts_of_finite (s : JSVal) (h : s.isFinite = true) : accepts s = true :=
  (accepts_iff s).2 (Or.inl h)

/-- One move keeps the accepted scale finite when the event's scale is not
`-Infinity`. -/
theorem move_keeps_finite (C : Construct)
    (hC : ∀ heap i event action phase element,
      (C heap i event action phase element).scale ≠ .num .negInf)
    (event : RawEvent) (w : World) (hw : w.interaction.gesture.scale.isFinite = true) :
    (gesture.move C event w).2.interaction.gesture.scale.isFinite = true := by
  by_cases h : w.interaction.pointerIds.length = 0
  · simp [gesture.move, h, hw]
  · rw [move_eq C event w h]
    simp only
    split
    · rename_i hacc
      rcases (accepts_iff _).1 hacc with hf | hn
      · exact hf
      · exact absurd hn (hC _ _ _ _ _ _)
    · exact hw

/-- A run of moves keeps the accepted scale finite under the same condition. -/
theorem moves_keep_finite (C : Construct)
    (hC : ∀ heap i event action phase element,
      (C heap i event action phase element).scale ≠ .num .negInf)
    (events : List RawEvent) : ∀ w : World, w.interaction.gesture.scale.isFinite = true →
    (moves C events w).interaction.gesture.scale.isFinite = true := by
  induction events with
  | nil => intro w hw; exact hw
  | cons e es ih => intro w hw; exact ih _ (move_keeps_finite C hC e w hw)

/-- No scale of `glitchConstruct` is `-Infinity`. -/
theorem glitchConstruct_scale (heap : Heap) (i : Interaction) (event : RawEvent)
    (action phase : String) (element : Element) :
    (glitchConstruct heap i event action phase element).scale ≠ .num .negInf := by
  simp only [glitchConstruct]
  unfold glitchScale
  split <;> simp [JSVal.lit, JSVal.infinity]

/-! ## Lines 129 to 157 once the five names are bound -/

theorem getElem?_set_same (heap : Heap) (r : Nat) (o x : HeapObj) (hr : heap[r]? = some o) :
    (heap.set r x)[r]? = some x := by
  have hlt : r < heap.length := by
    rcases Nat.lt_or_ge r heap.length with h | h
    · exact h
    · rw [List.getElem?_eq_none h] at hr; cases hr
  simp [hlt]

theorem updateObj_set (heap : Heap) (r : Nat) (o x : HeapObj) (hr : heap[r]? = some o)
    (f : InteractEvent → InteractEvent) :
    updateObj (heap.set r x) r f = heap.set r { x with fields := f x.fields } := by
  simp [updateObj, getElem?_set_same heap r o x hr]

theorem updateObj_get (heap : Heap) (r : Nat) (o : HeapObj) (hr : heap[r]? = some o)
    (f : InteractEvent → InteractEvent) :
    updateObj heap r f = heap.set r { o with fields := f o.fields } := by
  simp [updateObj, hr]

theorem getField_set_same (heap : Heap) (r : Nat) (o x : HeapObj) (hr : heap[r]? = some o)
    (g : InteractEvent → JSVal) : getField (heap.set r x) r g = g x.fields := by
  simp [getField, getElem?_set_same heap r o x hr]

theorem getField_set_other (heap : Heap) (r p : Nat) (x : HeapObj) (hp : p ≠ r)
    (g : InteractEvent → JSVal) : getField (heap.set r x) p g = getField heap p g := by
  simp [getField, List.getElem?_set_ne (Ne.symm hp)]

theorem getBox_set_other (heap : Heap) (r p : Nat) (x : HeapObj) (hp : p ≠ r) :
    getBox (heap.set r x) p = getBox heap p := by
  simp [getBox, List.getElem?_set_ne (Ne.symm hp)]

/-- Lines 131 to 139 once the names are bound: the start branch. -/
theorem enrich_start_bound (U : Utils) (globalEvent : Option Bool) (i : Interaction) (r : Nat)
    (ending : Option Bool) (d : Option String) (heap : Heap) (o : HeapObj)
    (hr : heap[r]? = some o) :
    enrich U globalEvent
      { interaction := some i, iEvent := some r, starting := some true, ending := ending,
        deltaSource := d } heap
      = .ok (heap.set r { o with fields :=
          { distance := U.touchDistance i.pointers d,
            box := U.touchBBox i.pointers,
            scale := JSVal.lit 1,
            ds := JSVal.lit 0,
            angle := U.touchAngle i.pointers .undefined d,
            da := JSVal.lit 0,
            touches := some [i.pointers[0]?, i.pointers[1]?] } }) := by
  simp only [enrich, enrichStart, updateObj_get heap r o hr, updateObj_set heap r o _ hr,
    if_true]

/-- Lines 131 and 142 to 147 once the names are bound: the end branch. -/
theorem enrich_end_bound (U : Utils) (globalEvent : Option Bool) (i : Interaction) (r p : Nat)
    (d : Option String) (heap : Heap) (o prev : HeapObj)
    (hr : heap[r]? = some o) (hprev : i.prevEvent = some p) (hp : heap[p]? = some prev)
    (hne : p ≠ r) :
    enrich U globalEvent
      { interaction := some i, iEvent := some r, starting := some false, ending := some true,
        deltaSource := d } heap
      = .ok (heap.set r { o with fields :=
          { distance := prev.fields.distance,
            box := prev.fields.box,
            scale := prev.fields.scale,
            ds := jsSub prev.fields.scale (JSVal.lit 1),
            angle := prev.fields.angle,
            da := jsSub prev.fields.angle i.gesture.startAngle,
            touches := some [i.pointers[0]?, i.pointers[1]?] } }) := by
  have hd : getField heap p (·.distance) = prev.fields.distance := by simp [getField, hp]
  have hs : getField heap p (·.scale) = prev.fields.scale := by simp [getField, hp]
  have ha : getField heap p (·.angle) = prev.fields.angle := by simp [getField, hp]
  have hb : getBox heap p = prev.fields.box := by simp [getBox, hp]
  simp [enrich, enrichEnd, endingOrSynthetic, hprev, updateObj_get heap r o hr,
    updateObj_set heap r o _ hr, getField_set_same heap r o _ hr,
    getField_set_other heap r p _ hne, getBox_set_other heap r p _ hne, hd, hs, ha, hb]

/-- Lines 131 and 150 to 156 once the names are bound: the move branch. -/
theorem enrich_move_bound (U : Utils) (i : Interaction) (r : Nat)
    (d : Option String) (heap : Heap) (o : HeapObj) (hr : heap[r]? = some o) :
    enrich U (some false)
      { interaction := some i, iEvent := some r, starting := some false, ending := some false,
        deltaSource := d } heap
      = .ok (heap.set r { o with fields :=
          { distance := U.touchDistance i.pointers d,
            box := U.touchBBox i.pointers,
            scale := jsDiv (U.touchDistance i.pointers d) i.gesture.startDistance,
            ds := jsSub (jsDiv (U.touchDistance i.pointers d) i.gesture.startDistance)
              i.gesture.prevScale,
            angle := U.touchAngle i.pointers i.gesture.prevAngle d,
            da := jsSub (U.touchAngle i.pointers i.gesture.prevAngle d) i.gesture.prevAngle,
            touches := some [i.pointers[0]?, i.pointers[1]?] } }) := by
  simp [enrich, enrichMove, endingOrSynthetic, updateObj_get heap r o hr,
    updateObj_set heap r o _ hr, getField_set_same heap r o _ hr]

/-- The end branch on the sample heap, with the names bound: the event at
reference 1 takes the scale 2 of the previous event and `ds = 1`. -/
theorem enrich_end_sample :
    (enrich sampleUtils none
      { interaction := some sampleInteraction, iEvent := some 1, starting := some false,
        ending := some true, deltaSource := some "page" } sampleHeap).toOption.map
      (fun heap => (getField heap 1 (·.scale), getField heap 1 (·.ds)))
      = some (JSVal.lit 2, JSVal.lit 1) := by
  rw [enrich_end_bound sampleUtils none sampleInteraction 1 0 (some "page") sampleHeap sampleNew
    samplePrev rfl rfl rfl (by decide)]
  simp [Except.toOption, getField, sampleHeap, samplePrev, sampleEvent, jsSub, toNumber,
    JSNum.sub, JSVal.lit]
  norm_num

/-! ## The claims -/

/-- C1: `gesture.checker` returns the match `{name: 'gesture'}` exactly when
`interaction.pointerIds.length >= 2`, returns `null` exactly when it is below
2, whatever the four other arguments are, and leaves the interaction as it
was. -/
theorem checker_matches_iff_two_pointers {P E I L : Type} (pointer : P) (event : E)
    (interactable : I) (element : L) (interaction : Interaction) :
    ((gesture.checker pointer event interactable element interaction).1
        = some { name := "gesture" } ↔ 2 ≤ interaction.pointerIds.length) ∧
    ((gesture.checker pointer event interactable element interaction).1 = none
        ↔ interaction.pointerIds.length < 2) ∧
    (gesture.checker pointer event interactable element interaction).2 = interaction := by
  unfold gesture.checker
  by_cases h : interaction.pointerIds.length ≥ 2
  · rw [if_pos h]
    refine ⟨⟨fun _ => h, fun _ => rfl⟩, ⟨fun hn => (by cases hn), fun hl => (by omega)⟩, rfl⟩
  · rw [if_neg h]
    refine ⟨⟨fun hn => (by cases hn), fun hl => absurd hl h⟩, ⟨fun _ => (by omega), fun _ => rfl⟩, rfl⟩

/-- C2 fails as stated: from the accepted scale 1, one `gesture.move` whose
event carries the scale `-Infinity` leaves `interaction.gesture.scale` equal to
`-Infinity`, which is not finite. -/
theorem move_accepts_negative_infinity :
    sampleWorld.interaction.gesture.scale = JSVal.lit 1 ∧
    (gesture.move (constConstruct { sampleEvent with scale := .num .negInf }) { id := 1 }
      sampleWorld).2.interaction.gesture.scale = .num .negInf ∧
    (gesture.move (constConstruct { sampleEvent with scale := .num .negInf }) { id := 1 }
      sampleWorld).2.interaction.gesture.scale.isFinite = false := by
  decide

/-- C2, amended: from a gesture state whose scale is finite, for every run of
`gesture.move` calls whose constructed events carry a scale other than
`-Infinity` (a finite number, `NaN`, `Infinity`, `null` or `undefined`),
`interaction.gesture.scale` is a finite number after every call of the run. -/
theorem scale_finite_after_every_move (C : Construct)
    (hC : ∀ heap i event action phase element,
      (C heap i event action phase element).scale ≠ .num .negInf)
    (w : World) (hw : w.interaction.gesture.scale.isFinite = true)
    (events : List RawEvent) (n : Nat) :
    (moves C (events.take n) w).interaction.gesture.scale.isFinite = true :=
  moves_keep_finite C hC (events.take n) w hw

/-- Witness for C2 amended: a run over a finite scale, `NaN`, `Infinity`,
`null` and `undefined`. -/
theorem scale_finite_after_every_move_witness :
    sampleWorld.interaction.gesture.scale.isFinite = true ∧
    (moves glitchConstruct (List.take 5 [⟨0⟩, ⟨1⟩, ⟨2⟩, ⟨3⟩, ⟨4⟩])
      sampleWorld).interaction.gesture.scale.isFinite = true :=
  ⟨by decide,
   scale_finite_after_every_move glitchConstruct glitchConstruct_scale sampleWorld (by decide)
     [⟨0⟩, ⟨1⟩, ⟨2⟩, ⟨3⟩, ⟨4⟩] 5⟩

/-- C3: `gesture.start` returns a reference to the event it has just
constructed for the phase `start`; that event has `ds = 0`; after the call
`startDistance = prevDistance =` the event's distance, `startAngle = prevAngle
=` the event's angle, `scale = 1` and `_interacting = true`; and the dispatch
log has grown by exactly one entry, the dispatch of that event. -/
theorem start_initialises_gesture (C : Construct) (event : RawEvent) (w : World) :
    ∃ obj : HeapObj,
      (gesture.start C event w).1 = w.heap.length ∧
      (gesture.start C event w).2.heap = w.heap ++ [obj] ∧
      (gesture.start C event w).2.heap[(gesture.start C event w).1]? = some obj ∧
      obj.action = "gesture" ∧ obj.phase = "start" ∧ obj.source = event ∧
      obj.element = w.interaction.element ∧
      obj.fields.ds = JSVal.lit 0 ∧
      (gesture.start C event w).2.interaction.gesture.startDistance = obj.fields.distance ∧
      (gesture.start C event w).2.interaction.gesture.prevDistance = obj.fields.distance ∧
      (gesture.start C event w).2.interaction.gesture.startAngle = obj.fields.angle ∧
      (gesture.start C event w).2.interaction.gesture.prevAngle = obj.fields.angle ∧
      (gesture.start C event w).2.interaction.gesture.scale = JSVal.lit 1 ∧
      (gesture.start C event w).2.interaction._interacting = true ∧
      (gesture.start C event w).2.fired = w.fired ++
        [{ ref := (gesture.start C event w).1, event := some obj.fields,
           seen := (gesture.start C event w).2.interaction }] := by
  rw [start_eq]
  exact ⟨_, rfl, rfl, getElem?_new _ _, rfl, rfl, rfl, rfl, rfl, rfl, rfl, rfl, rfl, rfl, rfl, rfl⟩

/-- C4: with no active pointer (`pointerIds.length = 0`), `gesture.move`
returns `interaction.prevEvent` itself, allocates no event, dispatches nothing
and leaves the gesture state, and the rest of the state, as it was. -/
theorem move_without_pointers (C : Construct) (event : RawEvent) (w : World)
    (h : w.interaction.pointerIds.length = 0) :
    (gesture.move C event w).1 = w.interaction.prevEvent ∧
    (gesture.move C event w).2.heap = w.heap ∧
    (gesture.move C event w).2.fired = w.fired ∧
    (gesture.move C event w).2.interaction.gesture = w.interaction.gesture ∧
    (gesture.move C event w).2 = w := by
  simp [gesture.move, h]

/-- Witness for C4: both pointers lifted, the previous event at reference 0. -/
theorem move_without_pointers_witness :
    idleWorld.interaction.pointerIds.length = 0 ∧
    ((gesture.move (constConstruct sampleEvent) { id := 1 } idleWorld).1
        = idleWorld.interaction.prevEvent ∧
      (gesture.move (constConstruct sampleEvent) { id := 1 } idleWorld).2.heap = idleWorld.heap ∧
      (gesture.move (constConstruct sampleEvent) { id := 1 } idleWorld).2.fired
        = idleWorld.fired ∧
      (gesture.move (constConstruct sampleEvent) { id := 1 } idleWorld).2.interaction.gesture
        = idleWorld.interaction.gesture ∧
      (gesture.move (constConstruct sampleEvent) { id := 1 } idleWorld).2 = idleWorld) :=
  ⟨by decide, move_without_pointers (constConstruct sampleEvent) { id := 1 } idleWorld (by decide)⟩

/-- C5: when at least one pointer is down, the move event that `gesture.move`
returns, which is also the one it dispatched, has the scale the constructor
gave it and `ds` equal to that scale minus the value `interaction.gesture.scale`
had before the call, whatever `ds` the constructor had left in the event. -/
theorem move_ds_from_accepted_scale (C : Construct) (event : RawEvent) (w : World)
    (h : 1 ≤ w.interaction.pointerIds.length) :
    ∃ (ref : Nat) (obj : HeapObj),
      (gesture.move C event w).1 = some ref ∧
      (gesture.move C event w).2.heap[ref]? = some obj ∧
      obj.action = "gesture" ∧ obj.phase = "move" ∧
      obj.fields.scale = (built C "move" event w).scale ∧
      obj.fields.ds = jsSub obj.fields.scale w.interaction.gesture.scale ∧
      (gesture.move C event w).2.fired = w.fired ++
        [{ ref := ref, event := some obj.fields, seen := w.interaction }] := by
  rw [move_eq C event w (by omega)]
  exact ⟨_, _, rfl, getElem?_new _ _, rfl, rfl, rfl, rfl, rfl⟩

/-- Witness for C5: two pointers down, accepted scale 1, event scale 2. -/
theorem move_ds_from_accepted_scale_witness :
    1 ≤ sampleWorld.interaction.pointerIds.length ∧
    ∃ (ref : Nat) (obj : HeapObj),
      (gesture.move (constConstruct sampleEvent) { id := 1 } sampleWorld).1 = some ref ∧
      (gesture.move (constConstruct sampleEvent) { id := 1 } sampleWorld).2.heap[ref]?
        = some obj ∧
      obj.action = "gesture" ∧ obj.phase = "move" ∧
      obj.fields.scale = (built (constConstruct sampleEvent) "move" { id := 1 } sampleWorld).scale ∧
      obj.fields.ds = jsSub obj.fields.scale sampleWorld.interaction.gesture.scale ∧
      (gesture.move (constConstruct sampleEvent) { id := 1 } sampleWorld).2.fired
        = sampleWorld.fired ++
          [{ ref := ref, event := some obj.fields, seen := sampleWorld.interaction }] :=
  ⟨by decide,
   move_ds_from_accepted_scale (constConstruct sampleEvent) { id := 1 } sampleWorld (by decide)⟩

/-- C6: when at least one pointer is down, `gesture.move` allocates one new
event, built by the constructor for the phase `move`, and returns it; after the
call `prevAngle` and `prevDistance` are the angle and the distance the
constructor gave that event, whatever its scale is; `interaction.gesture.scale`
is the event's scale when that scale is finite and is unchanged when it is
`NaN`, `Infinity`, `null` or `undefined`; the other fields of the gesture state
are unchanged; and the one dispatch of the call shows listeners the new event
and the interaction as it was before the call. -/
theorem move_updates_after_dispatch (C : Construct) (event : RawEvent) (w : World)
    (h : 1 ≤ w.interaction.pointerIds.length) :
    ∃ obj : HeapObj,
      (gesture.move C event w).1 = some w.heap.length ∧
      (gesture.move C event w).2.heap = w.heap ++ [obj] ∧
      (gesture.move C event w).2.heap[w.heap.length]? = some obj ∧
      obj.source = event ∧ obj.action = "gesture" ∧ obj.phase = "move" ∧
      obj.element = w.interaction.element ∧
      obj.fields.angle = (built C "move" event w).angle ∧
      obj.fields.distance = (built C "move" event w).distance ∧
      obj.fields.scale = (built C "move" event w).scale ∧
      (gesture.move C event w).2.interaction.gesture.prevAngle
        = (built C "move" event w).angle ∧
      (gesture.move C event w).2.interaction.gesture.prevDistance
        = (built C "move" event w).distance ∧
      ((built C "move" event w).scale.isFinite = true →
        (gesture.move C event w).2.interaction.gesture.scale
          = (built C "move" event w).scale) ∧
      (((built C "move" event w).scale = .num .nan ∨
          (built C "move" event w).scale = JSVal.infinity ∨
          (built C "move" event w).scale = .null ∨
          (built C "move" event w).scale = .undefined) →
        (gesture.move C event w).2.interaction.gesture.scale = w.interaction.gesture.scale) ∧
      (gesture.move C event w).2.interaction.gesture.startDistance
        = w.interaction.gesture.startDistance ∧
      (gesture.move C event w).2.interaction.gesture.startAngle
        = w.interaction.gesture.startAngle ∧
      (gesture.move C event w).2.fired = w.fired ++
        [{ ref := w.heap.length, event := some obj.fields, seen := w.interaction }] := by
  rw [move_eq C event w (by omega)]
  refine ⟨_, rfl, rfl, getElem?_new _ _, rfl, rfl, rfl, rfl, rfl, rfl, rfl, rfl, rfl, ?_, ?_,
    rfl, rfl, rfl⟩
  · intro hf
    simp only
    rw [if_pos (accepts_of_finite _ hf)]
  · intro hg
    simp only
    have hna : accepts (built C "move" event w).scale = false := by
      rcases hg with hg | hg | hg | hg <;> rw [hg] <;> decide
    rw [hna]
    rfl

/-- Witness for C6: two pointers down, a move to distance 20 and scale 2. -/
theorem move_updates_after_dispatch_witness :
    1 ≤ sampleWorld.interaction.pointerIds.length ∧
    ∃ obj : HeapObj,
      (gesture.move (constConstruct sampleEvent) { id := 1 } sampleWorld).1
        = some sampleWorld.heap.length ∧
      (gesture.move (constConstruct sampleEvent) { id := 1 } sampleWorld).2.heap
        = sampleWorld.heap ++ [obj] ∧
      (gesture.move (constConstruct sampleEvent) { id := 1 }
        sampleWorld).2.heap[sampleWorld.heap.length]? = some obj ∧
      obj.source = { id := 1 } ∧ obj.action = "gesture" ∧ obj.phase = "move" ∧
      obj.element = sampleWorld.interaction.element ∧
      obj.fields.angle
        = (built (constConstruct sampleEvent) "move" { id := 1 } sampleWorld).angle ∧
      obj.fields.distance
        = (built (constConstruct sampleEvent) "move" { id := 1 } sampleWorld).distance ∧
      obj.fields.scale
        = (built (constConstruct sampleEvent) "move" { id := 1 } sampleWorld).scale ∧
      (gesture.move (constConstruct sampleEvent) { id := 1 }
        sampleWorld).2.interaction.gesture.prevAngle
        = (built (constConstruct sampleEvent) "move" { id := 1 } sampleWorld).angle ∧
      (gesture.move (constConstruct sampleEvent) { id := 1 }
        sampleWorld).2.interaction.gesture.prevDistance
        = (built (constConstruct sampleEvent) "move" { id := 1 } sampleWorld).distance ∧
      ((built (constConstruct sampleEvent) "move" { id := 1 } sampleWorld).scale.isFinite
          = true →
        (gesture.move (constConstruct sampleEvent) { id := 1 }
          sampleWorld).2.interaction.gesture.scale
          = (built (constConstruct sampleEvent) "move" { id := 1 } sampleWorld).scale) ∧
      (((built (constConstruct sampleEvent) "move" { id := 1 } sampleWorld).scale = .num .nan ∨
          (built (constConstruct sampleEvent) "move" { id := 1 } sampleWorld).scale
            = JSVal.infinity ∨
          (built (constConstruct sampleEvent) "move" { id := 1 } sampleWorld).scale = .null ∨
          (built (constConstruct sampleEvent) "move" { id := 1 } sampleWorld).scale
            = .undefined) →
        (gesture.move (constConstruct sampleEvent) { id := 1 }
          sampleWorld).2.interaction.gesture.scale = sampleWorld.interaction.gesture.scale) ∧
      (gesture.move (constConstruct sampleEvent) { id := 1 }
        sampleWorld).2.interaction.gesture.startDistance
        = sampleWorld.interaction.gesture.startDistance ∧
      (gesture.move (constConstruct sampleEvent) { id := 1 }
        sampleWorld).2.interaction.gesture.startAngle
        = sampleWorld.interaction.gesture.startAngle ∧
      (gesture.move (constConstruct sampleEvent) { id := 1 } sampleWorld).2.fired
        = sampleWorld.fired ++
          [{ ref := sampleWorld.heap.length, event := some obj.fields,
             seen := sampleWorld.interaction }] :=
  ⟨by decide,
   move_updates_after_dispatch (constConstruct sampleEvent) { id := 1 } sampleWorld (by decide)⟩

/-- C7, on the code: in the end phase (`starting` false, `ending` true) the
listener raises a TypeError at line 129 and changes no event, because line 128
destructures the object literal `{arg}` and so leaves `interaction`
undefined. -/
theorem listener_end_phase_raises (U : Utils) (globalEvent : Option Bool)
    (interaction : Interaction) (iEvent : Nat) (deltaSource : String) (heap : Heap) :
    interacteventDelta U globalEvent
      { action := "gesture", interaction := interaction, iEvent := iEvent, starting := false,
        ending := true, deltaSource := deltaSource } heap = .error (.typeError, heap) := by
  rfl

/-- C8, on the code: whenever the end branch would be taken (`starting` false
and either `ending` true or the global `event` an `InteractEvent`), the
listener raises a TypeError before line 141, so neither `ds` nor `da` is
written. -/
theorem listener_end_branch_raises (U : Utils) (interaction : Interaction) (iEvent : Nat)
    (ending : Bool) (deltaSource : String) (heap : Heap) :
    interacteventDelta U (some true)
      { action := "gesture", interaction := interaction, iEvent := iEvent, starting := false,
        ending := ending, deltaSource := deltaSource } heap = .error (.typeError, heap) := by
  rfl

/-- C9, on the code: in the move phase (`starting` and `ending` false) the
listener raises a TypeError at line 129, whether or not a global `event`
exists; and `prevScale`, the value line 155 would subtract, is written neither
by `gesture.start` nor by `gesture.move`. -/
theorem listener_move_phase_raises (U : Utils) (globalEvent : Option Bool)
    (interaction : Interaction) (iEvent : Nat) (deltaSource : String) (heap : Heap)
    (C : Construct) (event : RawEvent) (w : World) :
    interacteventDelta U globalEvent
      { action := "gesture", interaction := interaction, iEvent := iEvent, starting := false,
        ending := false, deltaSource := deltaSource } heap = .error (.typeError, heap) ∧
    (gesture.start C event w).2.interaction.gesture.prevScale
      = w.interaction.gesture.prevScale ∧
    (gesture.move C event w).2.interaction.gesture.prevScale
      = w.interaction.gesture.prevScale := by
  refine ⟨rfl, ?_, ?_⟩
  · rw [start_eq]
  · by_cases h : w.interaction.pointerIds.length = 0
    · simp [gesture.move, h]
    · rw [move_eq C event w h]

/-- C10, on the code: in the start phase (`starting` true) the listener raises
a TypeError at line 129 and writes none of `scale`, `ds`, `da`, `distance`,
`box` and `angle`. -/
theorem listener_start_phase_raises (U : Utils) (globalEvent : Option Bool)
    (interaction : Interaction) (iEvent : Nat) (ending : Bool) (deltaSource : String)
    (heap : Heap) :
    interacteventDelta U globalEvent
      { action := "gesture", interaction := interaction, iEvent := iEvent, starting := true,
        ending := ending, deltaSource := deltaSource } heap = .error (.typeError, heap) := by
  rfl

/-! ## Further lemmas on the lifecycle operations -/

theorem jsSub_lit (a b : ℚ) : jsSub (JSVal.lit a) (JSVal.lit b) = JSVal.lit (a - b) := rfl

theorem jsAdd_lit (a b : ℚ) : jsAdd (JSVal.lit a) (JSVal.lit b) = JSVal.lit (a + b) := rfl

theorem isFinite_iff (v : JSVal) : v.isFinite = true ↔ ∃ q : ℚ, v = JSVal.lit q := by
  rcases v with _ | _ | (q | _ | _ | _) <;> simp [JSVal.isFinite, JSVal.lit]

/-- `gesture.move` leaves the list of pointer identifiers as it is. -/
theorem move_pointerIds (C : Construct) (event : RawEvent) (w : World) :
    (gesture.move C event w).2.interaction.pointerIds = w.interaction.pointerIds := by
  by_cases h : w.interaction.pointerIds.length = 0
  · simp [gesture.move, h]
  · rw [move_eq C event w h]

/-- `gesture.start` leaves the list of pointer identifiers as it is. -/
theorem start_pointerIds (C : Construct) (event : RawEvent) (w : World) :
    (gesture.start C event w).2.interaction.pointerIds = w.interaction.pointerIds := by
  rw [start_eq]

/-- A move whose event carries a finite scale accepts it. -/
theorem move_scale_of_finite (C : Construct) (event : RawEvent) (w : World) (s : ℚ)
    (hp : 1 ≤ w.interaction.pointerIds.length)
    (hs : (built C "move" event w).scale = JSVal.lit s) :
    (gesture.move C event w).2.interaction.gesture.scale = JSVal.lit s := by
  rw [move_eq C event w (by omega)]
  simp only [hs]
  rw [if_pos (accepts_of_finite (JSVal.lit s) rfl)]

/-- A move whose event carries `NaN`, `Infinity`, `null` or `undefined` keeps
the accepted scale and still records the raw distance and angle. -/
theorem move_of_glitch (C : Construct) (event : RawEvent) (w : World)
    (hp : 1 ≤ w.interaction.pointerIds.length)
    (hg : (built C "move" event w).scale = .num .nan ∨
      (built C "move" event w).scale = JSVal.infinity ∨
      (built C "move" event w).scale = .null ∨ (built C "move" event w).scale = .undefined) :
    (gesture.move C event w).2.interaction.gesture.scale = w.interaction.gesture.scale ∧
    (gesture.move C event w).2.interaction.gesture.prevDistance
      = (built C "move" event w).distance ∧
    (gesture.move C event w).2.interaction.gesture.prevAngle
      = (built C "move" event w).angle := by
  have hna : accepts (built C "move" event w).scale = false := by
    rcases hg with hg | hg | hg | hg <;> rw [hg] <;> decide
  rw [move_eq C event w (by omega)]
  simp [hna]

/-- The event a move returns and its `ds`. -/
theorem move_returned_ds (C : Construct) (event : RawEvent) (w : World)
    (hp : 1 ≤ w.interaction.pointerIds.length) :
    ∃ (ref : Nat) (obj : HeapObj),
      (gesture.move C event w).1 = some ref ∧
      (gesture.move C event w).2.heap[ref]? = some obj ∧
      ref = w.heap.length ∧
      (gesture.move C event w).2.heap = w.heap ++ [obj] ∧
      obj.fields.scale = (built C "move" event w).scale ∧
      obj.fields.ds = jsSub (built C "move" event w).scale w.interaction.gesture.scale := by
  rw [move_eq C event w (by omega)]
  exact ⟨_, _, rfl, getElem?_new _ _, rfl, rfl, rfl, rfl⟩

/-- The first entry of `movesDs` when a pointer is down. -/
theorem movesDs_cons (C : Construct) (event : RawEvent) (rest : List RawEvent) (w : World)
    (hp : 1 ≤ w.interaction.pointerIds.length) :
    movesDs C (event :: rest) w =
      jsSub (built C "move" event w).scale w.interaction.gesture.scale ::
        movesDs C rest (gesture.move C event w).2 := by
  obtain ⟨ref, obj, h1, h2, _, _, _, h6⟩ := move_returned_ds C event w hp
  simp only [movesDs, h1, getField, h2, h6]

/-- Telescoping from any accepted scale: the running sum of the deltas stays
one below the accepted scale. -/
theorem movesDs_sum (C : Construct)
    (hfin : ∀ heap i event element,
      (C heap i event "gesture" "move" element).scale.isFinite = true)
    (events : List RawEvent) : ∀ (w : World) (a : ℚ),
    1 ≤ w.interaction.pointerIds.length →
    w.interaction.gesture.scale = JSVal.lit a →
    List.foldl jsAdd (JSVal.lit (a - 1)) (movesDs C events w)
      = jsSub (moves C events w).interaction.gesture.scale (JSVal.lit 1) := by
  induction events with
  | nil =>
    intro w a _ ha
    simp only [movesDs, moves, List.foldl_nil, ha, jsSub_lit]
  | cons e es ih =>
    intro w a hp ha
    obtain ⟨s, hs⟩ := (isFinite_iff _).1 (hfin w.heap w.interaction e w.interaction.element)
    have hs' : (built C "move" e w).scale = JSVal.lit s := hs
    have hp' : 1 ≤ (gesture.move C e w).2.interaction.pointerIds.length := by
      rw [move_pointerIds]; exact hp
    have hsc := move_scale_of_finite C e w s hp hs'
    rw [movesDs_cons C e es w hp, List.foldl_cons, hs', ha, jsSub_lit, jsAdd_lit]
    have : a - 1 + (s - a) = s - 1 := by ring
    rw [this]
    simpa [moves] using ih _ s hp' hsc

/-- A run of moves leaves the list of pointer identifiers as it is. -/
theorem moves_pointerIds (C : Construct) (events : List RawEvent) : ∀ w : World,
    (moves C events w).interaction.pointerIds = w.interaction.pointerIds := by
  induction events with
  | nil => intro w; rfl
  | cons e es ih => intro w; simp only [moves]; rw [ih, move_pointerIds]

/-- A run extended by one move. -/
theorem moves_append (C : Construct) (events : List RawEvent) (last : RawEvent) : ∀ w : World,
    moves C (events ++ [last]) w = (gesture.move C last (moves C events w)).2 := by
  induction events with
  | nil => intro w; rfl
  | cons e es ih => intro w; exact ih _

/-- Lines 142 to 147 in closed form, when the previous event and the event
being filled are two objects of the heap. -/
theorem enrichEnd_eq (i : Interaction) (r p : Nat) (heap : Heap) (o prev : HeapObj)
    (hr : heap[r]? = some o) (hprev : i.prevEvent = some p) (hp : heap[p]? = some prev)
    (hne : p ≠ r) :
    enrichEnd i r heap
      = .ok (heap.set r { o with fields :=
          { o.fields with
            distance := prev.fields.distance,
            box := prev.fields.box,
            scale := prev.fields.scale,
            ds := jsSub prev.fields.scale (JSVal.lit 1),
            angle := prev.fields.angle,
            da := jsSub prev.fields.angle i.gesture.startAngle } }) := by
  have hd : getField heap p (·.distance) = prev.fields.distance := by simp [getField, hp]
  have hs : getField heap p (·.scale) = prev.fields.scale := by simp [getField, hp]
  have ha : getField heap p (·.angle) = prev.fields.angle := by simp [getField, hp]
  have hb : getBox heap p = prev.fields.box := by simp [getBox, hp]
  simp [enrichEnd, hprev, updateObj_get heap r o hr,
    updateObj_set heap r o _ hr, getField_set_same heap r o _ hr,
    getField_set_other heap r p _ hne, getBox_set_other heap r p _ hne, hd, hs, ha, hb]

/-- The end branch run right after a move with a finite scale, with that move's
event as previous event, writes `ds` = accepted scale minus 1. -/
theorem end_ds_after_move (C : Construct) (event : RawEvent) (w : World) (o : HeapObj)
    (hp : 1 ≤ w.interaction.pointerIds.length)
    (hfin : (built C "move" event w).scale.isFinite = true) :
    ∃ (p : Nat) (heap' : Heap),
      (gesture.move C event w).1 = some p ∧
      enrichEnd { (gesture.move C event w).2.interaction with prevEvent := some p }
        (gesture.move C event w).2.heap.length ((gesture.move C event w).2.heap ++ [o])
        = .ok heap' ∧
      getField heap' (gesture.move C event w).2.heap.length (·.ds)
        = jsSub (gesture.move C event w).2.interaction.gesture.scale (JSVal.lit 1) := by
  obtain ⟨s, hs⟩ := (isFinite_iff _).1 hfin
  have hsc := move_scale_of_finite C event w s hp hs
  obtain ⟨p, obj, h1, _, h3, h4, h5, _⟩ := move_returned_ds C event w hp
  have hr : ((gesture.move C event w).2.heap ++ [o])[(gesture.move C event w).2.heap.length]?
      = some o := getElem?_new _ _
  have hpp : ((gesture.move C event w).2.heap ++ [o])[p]? = some obj := by
    rw [h4, h3, List.getElem?_append_left (by simp)]
    exact getElem?_new _ _
  have hne : p ≠ (gesture.move C event w).2.heap.length := by
    rw [h4, h3]; simp
  refine ⟨p, _, h1, enrichEnd_eq _ _ p _ o obj hr rfl hpp hne, ?_⟩
  rw [getField_set_same _ _ o _ hr, hsc]
  simp only [h5, hs]

/-- An assignment that leaves `touches` alone leaves the `touches` of every
object of the heap as it was. -/
theorem touches_updateObj (heap : Heap) (r ref : Nat) (f : InteractEvent → InteractEvent)
    (hf : ∀ e, (f e).touches = e.touches) :
    ((updateObj heap r f)[ref]?).map (·.fields.touches)
      = (heap[ref]?).map (·.fields.touches) := by
  unfold updateObj
  cases h : heap[r]? with
  | none => rfl
  | some o =>
    by_cases hre : ref = r
    · subst hre
      simp only [getElem?_set_same heap ref o _ h, h, Option.map_some', hf]
    · simp only [List.getElem?_set_ne (Ne.symm hre)]

/-- Lines 129 to 157 once the names are bound, in every phase and whether the
run completes or raises at line 141 or 142: the `touches` of the event is the
array of `pointers[0]` and `pointers[1]` that line 131 assigned, an entry being
`undefined` when the pointer list has no entry at that index. -/
theorem enrich_sets_touches (U : Utils) (globalEvent : Option Bool) (i : Interaction) (r : Nat)
    (starting ending : Option Bool) (d : Option String) (heap : Heap) (o : HeapObj)
    (hr : heap[r]? = some o) :
    touchesAfter (enrich U globalEvent
      { interaction := some i, iEvent := some r, starting := starting, ending := ending,
        deltaSource := d } heap) r
      = some (some [i.pointers[0]?, i.pointers[1]?]) := by
  have h1 : ((updateObj heap r fun e =>
      { e with touches := some [i.pointers[0]?, i.pointers[1]?] })[r]?).map (·.fields.touches)
      = some (some [i.pointers[0]?, i.pointers[1]?]) := by
    rw [updateObj_get heap r o hr, getElem?_set_same heap r o _ hr]
    rfl
  simp only [enrich, touchesAfter]
  split
  · simp only [heapAfter, enrichStart]
    simp (disch := intro _; rfl) only [touches_updateObj, h1]
  · split
    · simp only [heapAfter, h1]
    · simp only [enrichEnd]
      split
      · simp only [heapAfter, h1]
      · simp only [heapAfter]
        simp (disch := intro _; rfl) only [touches_updateObj, h1]
    · simp only [heapAfter, enrichMove]
      simp (disch := intro _; rfl) only [touches_updateObj, h1]

/-- With one pointer left and the names bound, the second entry of `touches` is
`undefined`. -/
theorem enrich_touches_one_pointer :
    touchesAfter
      (enrich sampleUtils none
        { interaction := some onePointerInteraction, iEvent := some 1, starting := some false,
          ending := some false, deltaSource := some "page" } sampleHeap) 1
      = some (some [some (pointerAt 0 0), none]) :=
  enrich_sets_touches sampleUtils none onePointerInteraction 1 (some false) (some false)
    (some "page") sampleHeap sampleNew rfl

/-! ## The claims, continued -/

/-- C11, on the code: for every argument whose action is `gesture`, in the
start, the move and the end phase alike and whatever the pointers and the
previous event are, the listener raises a TypeError at line 129 instead of
completing, and leaves the heap as it was; and once the names are bound, a
move-phase call still raises a ReferenceError at line 141 when no global
`event` exists, after line 131 has assigned `touches`. -/
theorem listener_raises_in_every_phase (U : Utils) (globalEvent : Option Bool)
    (interaction : Interaction) (iEvent : Nat) (starting ending : Bool) (deltaSource : String)
    (heap : Heap) :
    interacteventDelta U globalEvent
      { action := "gesture", interaction := interaction, iEvent := iEvent,
        starting := starting, ending := ending, deltaSource := deltaSource } heap
      = .error (.typeError, heap) ∧
    enrich U none
      { interaction := some interaction, iEvent := some iEvent, starting := some false,
        ending := some false, deltaSource := some deltaSource } heap
      = .error (.referenceError,
          updateObj heap iEvent fun e =>
            { e with touches := some [interaction.pointers[0]?, interaction.pointers[1]?] }) := by
  refine ⟨rfl, ?_⟩
  simp [enrich, endingOrSynthetic]

/-- C12, on the code: in the scenario (pointers at (0,0) and (10,0), then at
(0,0) and (20,0)) none of the three enrichments produces an event: for the
start, for the move and for the end the listener raises a TypeError at line
129, whatever the geometry helpers compute. -/
theorem scenario_enrichment_raises (U : Utils) (globalEvent : Option Bool) (g : GestureState)
    (prevEvent : Option Nat) (iEvent : Nat) (deltaSource : String) (heap : Heap) :
    interacteventDelta U globalEvent
      { action := "gesture", interaction := scenarioInteraction 10 g prevEvent, iEvent := iEvent,
        starting := true, ending := false, deltaSource := deltaSource } heap
      = .error (.typeError, heap) ∧
    interacteventDelta U globalEvent
      { action := "gesture", interaction := scenarioInteraction 20 g prevEvent, iEvent := iEvent,
        starting := false, ending := false, deltaSource := deltaSource } heap
      = .error (.typeError, heap) ∧
    interacteventDelta U globalEvent
      { action := "gesture", interaction := scenarioInteraction 20 g prevEvent, iEvent := iEvent,
        starting := false, ending := true, deltaSource := deltaSource } heap
      = .error (.typeError, heap) :=
  ⟨rfl, rfl, rfl⟩

/-- C13 fails as stated: a start event of distance 0 (two coincident pointers)
leaves `interaction.gesture.startDistance` equal to 0. -/
theorem start_takes_zero_distance :
    (gesture.start (constConstruct { sampleEvent with distance := JSVal.lit 0 }) { id := 1 }
      sampleWorld).2.interaction.gesture.startDistance = JSVal.lit 0 := by
  decide

/-- C13, amended: after `gesture.start`, `interaction.gesture.startDistance` is
the distance of the start event, so it is zero exactly when that distance is
zero and nonzero for every start event of nonzero distance. -/
theorem startDistance_zero_iff (C : Construct) (event : RawEvent) (w : World) :
    (gesture.start C event w).2.interaction.gesture.startDistance
      = (built C "start" event w).distance ∧
    ((gesture.start C event w).2.interaction.gesture.startDistance = JSVal.lit 0
      ↔ (built C "start" event w).distance = JSVal.lit 0) := by
  rw [start_eq]
  exact ⟨rfl, Iff.rfl⟩

/-- C14, on the code: for every argument whose action is `gesture`, in every
phase, the listener raises a TypeError at line 129, before line 131, and leaves
the heap as it was, so the `touches` of the event is what it was before the
call; an event that had no `touches` still has none, with two pointers down
as well as with one. -/
theorem listener_never_sets_touches (U : Utils) (globalEvent : Option Bool)
    (interaction : Interaction) (iEvent : Nat) (starting ending : Bool) (deltaSource : String)
    (heap : Heap) :
    interacteventDelta U globalEvent
      { action := "gesture", interaction := interaction, iEvent := iEvent,
        starting := starting, ending := ending, deltaSource := deltaSource } heap
      = .error (.typeError, heap) ∧
    touchesAfter
      (interacteventDelta U globalEvent
        { action := "gesture", interaction := interaction, iEvent := iEvent,
          starting := starting, ending := ending, deltaSource := deltaSource } heap) iEvent
      = (heap[iEvent]?).map (·.fields.touches) ∧
    touchesAfter
      (interacteventDelta sampleUtils (some false)
        { action := "gesture", interaction := sampleInteraction, iEvent := 1,
          starting := starting, ending := ending, deltaSource := "page" } sampleHeap) 1
      = some none ∧
    touchesAfter
      (interacteventDelta sampleUtils (some false)
        { action := "gesture", interaction := onePointerInteraction, iEvent := 1,
          starting := starting, ending := ending, deltaSource := "page" } sampleHeap) 1
      = some none :=
  ⟨rfl, rfl, rfl, rfl⟩

/-- C15, on the code: called with no argument, `gesturable` returns the whole
object `options.gesture` (line 122), never a boolean, and changes nothing; for
the default options, whose `enabled` is false, the caller gets an object. -/
theorem gesturable_getter_returns_options (M : Methods) (self : Interactable) :
    (gesturable M .absent self).1 = .gestureOptions self.gesture ∧
    (∀ b : Bool, (gesturable M .absent self).1 ≠ .bool b) ∧
    (gesturable M .absent self).2 = self ∧
    (gesturable M .absent sampleInteractable).1 ≠ .bool sampleInteractable.gesture.enabled := by
  refine ⟨rfl, ?_, rfl, ?_⟩
  · intro b h
    cases h
  · intro h
    cases h

/-- C16, on the code: as a setter `gesturable` returns the Interactable it was
called on, and `gesturable(b)` with a boolean `b` sets `options.gesture.enabled`
to `b` and changes nothing else; but for an options object line 109 sets
`options.gesture.enabled` to false when the object's `enabled` is `false`
(and to true otherwise) before `setPerAction` and `setOnEvents` run, so
`gesturable({enabled: false})` on an Interactable that was gesturable leaves it
not gesturable when those two methods leave the options alone. -/
theorem gesturable_object_can_disable (M : Methods) (self : Interactable) :
    (∀ b : Bool,
      gesturable M (.bool b) self
        = (.this, { self with gesture := { self.gesture with enabled := b } })) ∧
    (∀ o : OptionsArg,
      gesturable M (.object o) self
        = (.this, M.setOnEvents "gesture" o (M.setPerAction "gesture" o
            { self with gesture := { self.gesture with
                enabled := if o.enabled = .bool false then false else true } }))) ∧
    (gesturable idleMethods (.object { enabled := .bool false, others := 0 })
      { sampleInteractable with gesture := { gesture.defaults with enabled := true } }).1
      = .this ∧
    (gesturable idleMethods (.object { enabled := .bool false, others := 0 })
      { sampleInteractable with gesture := { gesture.defaults with enabled := true } }
      ).2.gesture.enabled = false :=
  ⟨fun _ => rfl, fun _ => rfl, rfl, rfl⟩

/-- C18: `gesture.move`, with or without pointers, and `gesture.end` leave
`startDistance` and `startAngle` as they are; `gesture.end` leaves the whole
gesture state and the interaction as they are, allocates one event for the
phase `end` and dispatches it, exactly once. -/
theorem start_values_written_once (C : Construct) (event : RawEvent) (w : World) :
    (gesture.move C event w).2.interaction.gesture.startDistance
      = w.interaction.gesture.startDistance ∧
    (gesture.move C event w).2.interaction.gesture.startAngle
      = w.interaction.gesture.startAngle ∧
    (gesture.end_ C event w).interaction.gesture = w.interaction.gesture ∧
    (gesture.end_ C event w).interaction = w.interaction ∧
    ∃ obj : HeapObj,
      (gesture.end_ C event w).heap = w.heap ++ [obj] ∧
      obj.action = "gesture" ∧ obj.phase = "end" ∧
      (gesture.end_ C event w).fired = w.fired ++
        [{ ref := w.heap.length, event := some obj.fields, seen := w.interaction }] := by
  refine ⟨?_, ?_, ?_, ?_, ?_⟩
  · by_cases h : w.interaction.pointerIds.length = 0
    · simp [gesture.move, h]
    · rw [move_eq C event w h]
  · by_cases h : w.interaction.pointerIds.length = 0
    · simp [gesture.move, h]
    · rw [move_eq C event w h]
  · rw [end_eq]
  · rw [end_eq]
  · rw [end_eq]
    exact ⟨_, rfl, rfl, rfl, rfl⟩

/-- C19: for three consecutive moves with a pointer down whose events carry the
scales `s1`, `g` and `s3`, with `s1` and `s3` finite and `g` one of `NaN`,
`Infinity`, `null`, `undefined`: after the second call the accepted scale is
still `s1` while `prevDistance` and `prevAngle` are the distance and the angle
of the second event, and the event the third call returns has
`ds = s3 - s1`. -/
theorem scale_frozen_through_glitch (C : Construct) (e1 e2 e3 : RawEvent) (w : World)
    (s1 s3 : ℚ) (g : JSVal)
    (hp : 1 ≤ w.interaction.pointerIds.length)
    (h1 : (built C "move" e1 w).scale = JSVal.lit s1)
    (hg : g = .num .nan ∨ g = JSVal.infinity ∨ g = .null ∨ g = .undefined)
    (h2 : (built C "move" e2 (gesture.move C e1 w).2).scale = g)
    (h3 : (built C "move" e3 (gesture.move C e2 (gesture.move C e1 w).2).2).scale
      = JSVal.lit s3) :
    (gesture.move C e2 (gesture.move C e1 w).2).2.interaction.gesture.scale = JSVal.lit s1 ∧
    (gesture.move C e2 (gesture.move C e1 w).2).2.interaction.gesture.prevDistance
      = (built C "move" e2 (gesture.move C e1 w).2).distance ∧
    (gesture.move C e2 (gesture.move C e1 w).2).2.interaction.gesture.prevAngle
      = (built C "move" e2 (gesture.move C e1 w).2).angle ∧
    ∃ (ref : Nat) (obj : HeapObj),
      (gesture.move C e3 (gesture.move C e2 (gesture.move C e1 w).2).2).1 = some ref ∧
      (gesture.move C e3 (gesture.move C e2 (gesture.move C e1 w).2).2).2.heap[ref]?
        = some obj ∧
      obj.fields.scale = JSVal.lit s3 ∧
      obj.fields.ds = JSVal.lit (s3 - s1) := by
  have hp1 : 1 ≤ (gesture.move C e1 w).2.interaction.pointerIds.length := by
    rw [move_pointerIds]; exact hp
  have hp2 : 1 ≤ (gesture.move C e2 (gesture.move C e1 w).2).2.interaction.pointerIds.length := by
    rw [move_pointerIds]; exact hp1
  have hs1 := move_scale_of_finite C e1 w s1 hp h1
  obtain ⟨hk, hd, ha⟩ := move_of_glitch C e2 (gesture.move C e1 w).2 hp1 (by rw [h2]; exact hg)
  have hs2 : (gesture.move C e2 (gesture.move C e1 w).2).2.interaction.gesture.scale
      = JSVal.lit s1 := by rw [hk, hs1]
  refine ⟨hs2, hd, ha, ?_⟩
  obtain ⟨ref, obj, r1, r2, _, _, r5, r6⟩ :=
    move_returned_ds C e3 (gesture.move C e2 (gesture.move C e1 w).2).2 hp2
  refine ⟨ref, obj, r1, r2, by rw [r5, h3], ?_⟩
  rw [r6, h3, hs2, jsSub_lit]

/-- Witness for C19: scales 2, `NaN`, 5 from the accepted scale 1. -/
theorem scale_frozen_through_glitch_witness :
    1 ≤ sampleWorld.interaction.pointerIds.length ∧
    (gesture.move freezeConstruct ⟨1⟩ (gesture.move freezeConstruct ⟨0⟩ sampleWorld).2
      ).2.interaction.gesture.scale = JSVal.lit 2 ∧
    (gesture.move freezeConstruct ⟨1⟩ (gesture.move freezeConstruct ⟨0⟩ sampleWorld).2
      ).2.interaction.gesture.prevDistance
      = (built freezeConstruct "move" ⟨1⟩
          (gesture.move freezeConstruct ⟨0⟩ sampleWorld).2).distance ∧
    (gesture.move freezeConstruct ⟨1⟩ (gesture.move freezeConstruct ⟨0⟩ sampleWorld).2
      ).2.interaction.gesture.prevAngle
      = (built freezeConstruct "move" ⟨1⟩
          (gesture.move freezeConstruct ⟨0⟩ sampleWorld).2).angle ∧
    ∃ (ref : Nat) (obj : HeapObj),
      (gesture.move freezeConstruct ⟨2⟩ (gesture.move freezeConstruct ⟨1⟩
        (gesture.move freezeConstruct ⟨0⟩ sampleWorld).2).2).1 = some ref ∧
      (gesture.move freezeConstruct ⟨2⟩ (gesture.move freezeConstruct ⟨1⟩
        (gesture.move freezeConstruct ⟨0⟩ sampleWorld).2).2).2.heap[ref]? = some obj ∧
      obj.fields.scale = JSVal.lit 5 ∧
      obj.fields.ds = JSVal.lit (5 - 2) :=
  ⟨by decide,
   scale_frozen_through_glitch freezeConstruct ⟨0⟩ ⟨1⟩ ⟨2⟩ sampleWorld 2 5 (.num .nan)
     (by decide) rfl (Or.inl rfl) rfl rfl⟩

/-- C20, on the code: over exact arithmetic, for `gesture.start` followed by
any run of `gesture.move` calls with a pointer down whose events all carry
finite scales, the `ds` of the start event plus the `ds` of all returned move
events is the final accepted scale minus 1; but when the run ends with a move
and the listener is then called for the end phase with that move's event as
previous event, it raises a TypeError at line 129 and the `ds` of the end
event stays what it was: the end branch reports nothing. -/
theorem ds_sum_telescopes_end_raises (C : Construct)
    (hfin : ∀ heap i event element,
      (C heap i event "gesture" "move" element).scale.isFinite = true)
    (first : RawEvent) (events : List RawEvent) (last : RawEvent) (w : World) (o : HeapObj)
    (hp : 1 ≤ w.interaction.pointerIds.length)
    (U : Utils) (globalEvent : Option Bool) (deltaSource : String) :
    List.foldl jsAdd
        (getField (gesture.start C first w).2.heap (gesture.start C first w).1 (·.ds))
        (movesDs C events (gesture.start C first w).2)
      = jsSub (moves C events (gesture.start C first w).2).interaction.gesture.scale
          (JSVal.lit 1) ∧
    ∃ p : Nat,
      (gesture.move C last (moves C events (gesture.start C first w).2)).1 = some p ∧
      List.foldl jsAdd
          (getField (gesture.start C first w).2.heap (gesture.start C first w).1 (·.ds))
          (movesDs C (events ++ [last]) (gesture.start C first w).2)
        = jsSub (moves C (events ++ [last])
            (gesture.start C first w).2).interaction.gesture.scale (JSVal.lit 1) ∧
      interacteventDelta U globalEvent
        { action := "gesture",
          interaction :=
            { (moves C (events ++ [last]) (gesture.start C first w).2).interaction with
              prevEvent := some p },
          iEvent := (moves C (events ++ [last]) (gesture.start C first w).2).heap.length,
          starting := false, ending := true, deltaSource := deltaSource }
        ((moves C (events ++ [last]) (gesture.start C first w).2).heap ++ [o])
        = .error (.typeError,
            (moves C (events ++ [last]) (gesture.start C first w).2).heap ++ [o]) ∧
      getField
          (heapAfter (interacteventDelta U globalEvent
            { action := "gesture",
              interaction :=
                { (moves C (events ++ [last]) (gesture.start C first w).2).interaction with
                  prevEvent := some p },
              iEvent := (moves C (events ++ [last]) (gesture.start C first w).2).heap.length,
              starting := false, ending := true, deltaSource := deltaSource }
            ((moves C (events ++ [last]) (gesture.start C first w).2).heap ++ [o])))
          (moves C (events ++ [last]) (gesture.start C first w).2).heap.length (·.ds)
        = o.fields.ds := by
  have hds : getField (gesture.start C first w).2.heap (gesture.start C first w).1 (·.ds)
      = JSVal.lit (1 - 1) := by
    rw [start_eq]
    simp only [getField_new]
    norm_num
  have hsc : (gesture.start C first w).2.interaction.gesture.scale = JSVal.lit 1 := by
    rw [start_eq]
  have hp0 : 1 ≤ (gesture.start C first w).2.interaction.pointerIds.length := by
    rw [start_pointerIds]; exact hp
  have hsum : ∀ es : List RawEvent,
      List.foldl jsAdd
          (getField (gesture.start C first w).2.heap (gesture.start C first w).1 (·.ds))
          (movesDs C es (gesture.start C first w).2)
        = jsSub (moves C es (gesture.start C first w).2).interaction.gesture.scale
            (JSVal.lit 1) := by
    intro es
    rw [hds]
    exact movesDs_sum C hfin es _ 1 hp0 hsc
  refine ⟨hsum events, ?_⟩
  have hpn : 1 ≤ (moves C events (gesture.start C first w).2).interaction.pointerIds.length := by
    rw [moves_pointerIds]; exact hp0
  obtain ⟨p, _, q1, _, _, _, _, _⟩ :=
    move_returned_ds C last (moves C events (gesture.start C first w).2) hpn
  refine ⟨p, q1, hsum (events ++ [last]), rfl, ?_⟩
  show getField ((moves C (events ++ [last]) (gesture.start C first w).2).heap ++ [o])
    (moves C (events ++ [last]) (gesture.start C first w).2).heap.length (·.ds) = o.fields.ds
  exact getField_new _ _ _

/-- Witness for C20: a start and a run of three moves, every event of scale 2,
two pointers down. -/
theorem ds_sum_telescopes_end_raises_witness :
    (∀ heap i event element,
      ((constConstruct sampleEvent) heap i event "gesture" "move" element).scale.isFinite
        = true) ∧
    1 ≤ sampleWorld.interaction.pointerIds.length ∧
    (List.foldl jsAdd
        (getField (gesture.start (constConstruct sampleEvent) ⟨0⟩ sampleWorld).2.heap
          (gesture.start (constConstruct sampleEvent) ⟨0⟩ sampleWorld).1 (·.ds))
        (movesDs (constConstruct sampleEvent) [⟨1⟩, ⟨2⟩]
          (gesture.start (constConstruct sampleEvent) ⟨0⟩ sampleWorld).2)
      = jsSub (moves (constConstruct sampleEvent) [⟨1⟩, ⟨2⟩]
          (gesture.start (constConstruct sampleEvent) ⟨0⟩ sampleWorld).2
          ).interaction.gesture.scale (JSVal.lit 1) ∧
    ∃ p : Nat,
      (gesture.move (constConstruct sampleEvent) ⟨3⟩
        (moves (constConstruct sampleEvent) [⟨1⟩, ⟨2⟩]
          (gesture.start (constConstruct sampleEvent) ⟨0⟩ sampleWorld).2)).1 = some p ∧
      List.foldl jsAdd
          (getField (gesture.start (constConstruct sampleEvent) ⟨0⟩ sampleWorld).2.heap
            (gesture.start (constConstruct sampleEvent) ⟨0⟩ sampleWorld).1 (·.ds))
          (movesDs (constConstruct sampleEvent) ([⟨1⟩, ⟨2⟩] ++ [⟨3⟩])
            (gesture.start (constConstruct sampleEvent) ⟨0⟩ sampleWorld).2)
        = jsSub (moves (constConstruct sampleEvent) ([⟨1⟩, ⟨2⟩] ++ [⟨3⟩])
            (gesture.start (constConstruct sampleEvent) ⟨0⟩ sampleWorld).2
            ).interaction.gesture.scale (JSVal.lit 1) ∧
      interacteventDelta sampleUtils (some false)
        { action := "gesture",
          interaction :=
            { (moves (constConstruct sampleEvent) ([⟨1⟩, ⟨2⟩] ++ [⟨3⟩])
                (gesture.start (constConstruct sampleEvent) ⟨0⟩ sampleWorld).2).interaction with
              prevEvent := some p },
          iEvent := (moves (constConstruct sampleEvent) ([⟨1⟩, ⟨2⟩] ++ [⟨3⟩])
            (gesture.start (constConstruct sampleEvent) ⟨0⟩ sampleWorld).2).heap.length,
          starting := false, ending := true, deltaSource := "page" }
        ((moves (constConstruct sampleEvent) ([⟨1⟩, ⟨2⟩] ++ [⟨3⟩])
          (gesture.start (constConstruct sampleEvent) ⟨0⟩ sampleWorld).2).heap ++ [sampleNew])
        = .error (.typeError,
            (moves (constConstruct sampleEvent) ([⟨1⟩, ⟨2⟩] ++ [⟨3⟩])
              (gesture.start (constConstruct sampleEvent) ⟨0⟩ sampleWorld).2).heap
              ++ [sampleNew]) ∧
      getField
          (heapAfter (interacteventDelta sampleUtils (some false)
            { action := "gesture",
              interaction :=
                { (moves (constConstruct sampleEvent) ([⟨1⟩, ⟨2⟩] ++ [⟨3⟩])
                    (gesture.start (constConstruct sampleEvent) ⟨0⟩
                      sampleWorld).2).interaction with
                  prevEvent := some p },
              iEvent := (moves (constConstruct sampleEvent) ([⟨1⟩, ⟨2⟩] ++ [⟨3⟩])
                (gesture.start (constConstruct sampleEvent) ⟨0⟩ sampleWorld).2).heap.length,
              starting := false, ending := true, deltaSource := "page" }
            ((moves (constConstruct sampleEvent) ([⟨1⟩, ⟨2⟩] ++ [⟨3⟩])
              (gesture.start (constConstruct sampleEvent) ⟨0⟩ sampleWorld).2).heap
              ++ [sampleNew])))
          (moves (constConstruct sampleEvent) ([⟨1⟩, ⟨2⟩] ++ [⟨3⟩])
            (gesture.start (constConstruct sampleEvent) ⟨0⟩ sampleWorld).2).heap.length (·.ds)
        = sampleNew.fields.ds) :=
  ⟨fun _ _ _ _ => rfl, by decide,
   ds_sum_telescopes_end_raises (constConstruct sampleEvent) (fun _ _ _ _ => rfl) ⟨0⟩
     [⟨1⟩, ⟨2⟩] ⟨3⟩ sampleWorld sampleNew (by decide) sampleUtils (some false) "page"⟩

end GestureJS
